import Mathlib

/-!
Verification of the Coap2MQTT bridge (a CoAP-to-MQTT protocol bridge for
Philips Hu1508 humidifiers) against its natural-language specification.

The development shallowly embeds the relevant parts of the source:

* `src/devices/coap_device.py` — the raw status dictionary, the pending
  command queue, `_add_command` and `get_commands`;
* `src/devices/philips.py` — the `Hu1508` device model: every property
  getter and the setters the claims exercise.  Python exceptions
  (`ValueError` from enum lookup, `TypeError` from `str + int`,
  `ZeroDivisionError`) are modelled by `Option`; Python floats are
  modelled as exact rationals;
* `src/coap_bridge.py` — the `signal_online` / `signal_offline` liveness
  gate and the cycle-time computation of `update_status_from_device`;
* `src/mqtt.py` — `Connection.publish_state` with its differential
  last-published cache, and the error-swallowing `_publish`.
-/

namespace Coap2MQTT

/-- A raw CoAP status value: `CoapStatusValue = int | float | str` in
`coap_device.py`.  Python floats are embedded as exact rationals. -/
inductive RawValue where
  | intV : Int → RawValue
  | ratV : ℚ → RawValue
  | strV : String → RawValue
  deriving DecidableEq, Repr

/-- The raw status dictionary `self._state : dict[str, CoapStatusValue]`. -/
def RawState := String → Option RawValue

/-- `dict.get(key, default)`. -/
def RawState.getD (s : RawState) (k : String) (d : RawValue) : RawValue :=
  (s k).getD d

/-- `self._state[key] = v` (dictionary item assignment). -/
def RawState.set (s : RawState) (k : String) (v : RawValue) : RawState :=
  fun k2 => if k2 = k then some v else s k2

/-- The empty raw dictionary (the device state at bridge construction). -/
def emptyRaw : RawState := fun _ => none

/-- Python `==` between a raw value and an integer enum code: Python
compares ints and floats numerically (`0.0 == 0` is `True`), and a string
is never `==` to an int. -/
def RawValue.eqInt : RawValue → Int → Bool
  | .intV n, m => n = m
  | .ratV q, m => q = (m : ℚ)
  | .strV _, _ => false

/-- Python `int(x)`: identity on ints, truncation toward zero on floats,
decimal parse on strings (`ValueError`, i.e. `none`, on a bad string). -/
def pyInt : RawValue → Option Int
  | .intV n => some n
  | .ratV q => some (if 0 ≤ q then q.floor else q.ceil)
  | .strV s => s.toInt?

/-- Python `x + 10` on a raw value (used by the `lamp_mode` getter); a
string raises `TypeError`, i.e. `none`. -/
def pyAdd10 : RawValue → Option RawValue
  | .intV n => some (.intV (n + 10))
  | .ratV q => some (.ratV (q + 10))
  | .strV _ => none

/-! ## Raw-key registry (`philips.py` module constants) -/

def DEVICE_NAME : String := "D01S03"
def POWER_STATUS : String := "D03102"
def WORK_MODE : String := "D0310C"
def HUMIDITY_TARGET : String := "D03128"
def LAMP_MODE : String := "D03135"
def AMBIENT_LIGHT_MODE : String := "D03137"
def BRIGHTNESS : String := "D03105"
def BEEP_STATUS : String := "D03130"
def STANDBY_SENSORS : String := "D03134"
def TEMPERATURE : String := "D03224"
def HUMIDITY : String := "D03125"
def FILTER_TOTAL_TIME : String := "D05207"
def FILTER_REMAINING_TIME : String := "D0520D"
def ERROR_CODE : String := "D03240"
def RUNTIME : String := "Runtime"

/-! ## Hu1508 enumerations -/

/-- `Hu1508.OnOff`. -/
inductive OnOff where
  | OFF
  | ON
  deriving DecidableEq, Repr

def OnOff.val : OnOff → Int
  | .OFF => 0
  | .ON => 1

/-- `Hu1508.OnOff(v)`: enum lookup by value, `ValueError` as `none`. -/
def OnOff.ofValue (v : RawValue) : Option OnOff :=
  if v.eqInt 0 then some .OFF
  else if v.eqInt 1 then some .ON
  else none

/-- `Hu1508.WorkMode`. -/
inductive WorkMode where
  | Auto
  | Sleep
  | Medium
  | High
  deriving DecidableEq, Repr

def WorkMode.val : WorkMode → Int
  | .Auto => 0
  | .Sleep => 17
  | .Medium => 19
  | .High => 65

def WorkMode.ofValue (v : RawValue) : Option WorkMode :=
  if v.eqInt 0 then some .Auto
  else if v.eqInt 17 then some .Sleep
  else if v.eqInt 19 then some .Medium
  else if v.eqInt 65 then some .High
  else none

/-- `Hu1508.LampMode`: lamp mode and ambient light in one enum, ambient
light codes shifted by 10 (codes 2 and 10 are commented out in the
source). -/
inductive LampMode where
  | Off
  | Humidity
  | Warm
  | Dawn
  | Calm
  | Breath
  deriving DecidableEq, Repr

def LampMode.val : LampMode → Int
  | .Off => 0
  | .Humidity => 1
  | .Warm => 11
  | .Dawn => 12
  | .Calm => 13
  | .Breath => 14

def LampMode.ofValue (v : RawValue) : Option LampMode :=
  if v.eqInt 0 then some .Off
  else if v.eqInt 1 then some .Humidity
  else if v.eqInt 11 then some .Warm
  else if v.eqInt 12 then some .Dawn
  else if v.eqInt 13 then some .Calm
  else if v.eqInt 14 then some .Breath
  else none

/-- Enum member lookup by name, as `ensure_setter_type` does for string
payloads received over MQTT. -/
def LampMode.ofName (s : String) : Option LampMode :=
  if s = "Off" then some .Off
  else if s = "Humidity" then some .Humidity
  else if s = "Warm" then some .Warm
  else if s = "Dawn" then some .Dawn
  else if s = "Calm" then some .Calm
  else if s = "Breath" then some .Breath
  else none

/-- `Hu1508.Brightness`. -/
inductive Brightness where
  | Bright
  | Low
  | Off
  deriving DecidableEq, Repr

def Brightness.ofValue (v : RawValue) : Option Brightness :=
  if v.eqInt 123 then some .Bright
  else if v.eqInt 115 then some .Low
  else if v.eqInt 0 then some .Off
  else none

/-- `Hu1508.ErrorStatus`. -/
inductive ErrorStatus where
  | NoError
  | FillTank
  | CleanFilter
  deriving DecidableEq, Repr

def ErrorStatus.ofValue (v : RawValue) : Option ErrorStatus :=
  if v.eqInt 0 then some .NoError
  else if v.eqInt (-16128) then some .FillTank
  else if v.eqInt (-16352) then some .CleanFilter
  else none

/-! ## CoapDevice: raw state plus pending command queue
(`coap_device.py`, class `CoapDevice`) -/

/-- A command: a minimal raw sub-mapping, `dict[str, CoapStatusValue]`,
kept in insertion order. -/
abbrev Command := List (String × RawValue)

/-- `CoapDevice`: `self._state` and `self._commands`. -/
structure Device where
  raw : RawState
  commands : List Command

/-- The dict comprehension `{field: self._state[field] for field in
fields}` of `_add_command`; indexing a missing key raises `KeyError`,
i.e. `none`. -/
def collectFields (s : RawState) : List String → Option Command
  | [] => some []
  | f :: rest =>
    match s f, collectFields s rest with
    | some v, some tail => some ((f, v) :: tail)
    | _, _ => none

/-- `CoapDevice._add_command(fields)`: appends
`{field: self._state[field] for field in fields}` to the queue. -/
def Device.addCommand (d : Device) (fields : List String) : Option Device :=
  match collectFields d.raw fields with
  | some cmd => some { d with commands := d.commands ++ [cmd] }
  | none => none

/-- `CoapDevice.get_commands()`: returns the queue and clears it. -/
def Device.getCommands (d : Device) : List Command × Device :=
  (d.commands, { d with commands := [] })

/-- Device state at bridge construction: empty raw dictionary, empty
command queue. -/
def emptyDevice : Device := { raw := emptyRaw, commands := [] }

/-! ## Hu1508 property getters (`philips.py`)
Each getter is a function of the raw dictionary; a Python exception
raised while decoding is `none`. -/

/-- `Hu1508.name`: `self._state.get(DEVICE_NAME, "Unknown")`. -/
def nameGet (s : RawState) : RawValue :=
  s.getD DEVICE_NAME (.strV "Unknown")

/-- `Hu1508.power_status` getter:
`Hu1508.OnOff(self._state.get(POWER_STATUS, 0))`. -/
def powerStatusGet (s : RawState) : Option OnOff :=
  OnOff.ofValue (s.getD POWER_STATUS (.intV 0))

/-- `Hu1508.mode` getter: `Hu1508.WorkMode(self._state.get(WORK_MODE, 0))`. -/
def modeGet (s : RawState) : Option WorkMode :=
  WorkMode.ofValue (s.getD WORK_MODE (.intV 0))

/-- `Hu1508.humidity_target` getter:
`self._state.get(HUMIDITY_TARGET, 40)` (returned uncast). -/
def humidityTargetGet (s : RawState) : RawValue :=
  s.getD HUMIDITY_TARGET (.intV 40)

/-- `Hu1508.lamp_mode` getter: reads the lamp-mode key (default 0); if it
equals 2 decodes the ambient-light key plus 10, else decodes the lamp-mode
value itself. -/
def lampModeGet (s : RawState) : Option LampMode :=
  let lm := s.getD LAMP_MODE (.intV 0)
  if lm.eqInt 2 then do
    let shifted ← pyAdd10 (s.getD AMBIENT_LIGHT_MODE (.intV 0))
    LampMode.ofValue shifted
  else
    LampMode.ofValue lm

/-- `Hu1508.brightness` getter:
`Hu1508.Brightness(self._state.get(BRIGHTNESS, 0))`. -/
def brightnessGet (s : RawState) : Option Brightness :=
  Brightness.ofValue (s.getD BRIGHTNESS (.intV 0))

/-- `Hu1508.preferences_beep` getter:
`Hu1508.OnOff(self._state.get(BEEP_STATUS, 1))`. -/
def preferencesBeepGet (s : RawState) : Option OnOff :=
  OnOff.ofValue (s.getD BEEP_STATUS (.intV 1))

/-- `Hu1508.preferences_sensors_in_standby` getter:
`Hu1508.OnOff(self._state.get(STANDBY_SENSORS, 1))`. -/
def preferencesSensorsGet (s : RawState) : Option OnOff :=
  OnOff.ofValue (s.getD STANDBY_SENSORS (.intV 1))

/-- `Hu1508.temperature`: `int(self._state.get(TEMPERATURE, 0)) // 10`
(Python floor division). -/
def temperatureGet (s : RawState) : Option Int :=
  (pyInt (s.getD TEMPERATURE (.intV 0))).map (fun n => Int.fdiv n 10)

/-- `Hu1508.humidity`: `int(self._state.get(HUMIDITY, 0))`. -/
def humidityGet (s : RawState) : Option Int :=
  pyInt (s.getD HUMIDITY (.intV 0))

/-- Python `round(x, 2)` on an exact rational: round half to even at two
decimal places. -/
def pyRound2 (q : ℚ) : ℚ :=
  let scaled : ℚ := q * 100
  let f : Int := scaled.floor
  let frac : ℚ := scaled - f
  let r : Int :=
    if frac < 1 / 2 then f
    else if 1 / 2 < frac then f + 1
    else if f % 2 = 0 then f else f + 1
  (r : ℚ) / 100

/-- `Hu1508.percent_unit_before_cleaning`:
`round(remaining / total * 100, 2)` with both keys defaulting to 200;
`total = 0` raises `ZeroDivisionError` (`none`). -/
def percentUnitBeforeCleaningGet (s : RawState) : Option ℚ := do
  let remaining ← pyInt (s.getD FILTER_REMAINING_TIME (.intV 200))
  let total ← pyInt (s.getD FILTER_TOTAL_TIME (.intV 200))
  if total = 0 then none
  else some (pyRound2 ((remaining : ℚ) / (total : ℚ) * 100))

/-- Result of reading `Hu1508.error`: Python `None`, an `ErrorStatus`
member, or the raw integer code. -/
inductive ErrorResult where
  | pyNone
  | status : ErrorStatus → ErrorResult
  | code : Int → ErrorResult
  deriving DecidableEq, Repr

/-- `Hu1508.error`: code defaults to 100 when the key is absent; `0` maps
to Python `None`; a known code maps to its `ErrorStatus` member; on
`ValueError` the getter logs and returns `int(error_code)`. -/
def errorGet (s : RawState) : Option ErrorResult :=
  let ec := s.getD ERROR_CODE (.intV 100)
  if ec.eqInt 0 then some .pyNone
  else
    match ErrorStatus.ofValue ec with
    | some st => some (.status st)
    | none => (pyInt ec).map .code

/-- `Hu1508.runtime_seconds`: `int(self._state.get(RUNTIME, 0)) // 1000`. -/
def runtimeSecondsGet (s : RawState) : Option Int :=
  (pyInt (s.getD RUNTIME (.intV 0))).map (fun n => Int.fdiv n 1000)

/-! ## Hu1508 property setters (`philips.py`)
Setters act on the whole device (raw dictionary and command queue); a
Python exception is `none`. -/

/-- `Hu1508.power_status` setter: returns unchanged when the current power
status already equals the new value, else stores the value and enqueues a
single-key command. -/
def powerStatusSet (d : Device) (v : OnOff) : Option Device :=
  match powerStatusGet d.raw with
  | none => none
  | some cur =>
    if cur = v then some d
    else
      Device.addCommand { d with raw := d.raw.set POWER_STATUS (.intV v.val) }
        [POWER_STATUS]

/-- `Hu1508.lamp_mode` setter: forces power ON, then encodes the value
(codes over 10 become lamp-mode selector 2 plus the shifted ambient-light
code; codes up to 10 clear the ambient-light key) and enqueues one command
carrying both raw keys. -/
def lampModeSet (d : Device) (v : LampMode) : Option Device :=
  match powerStatusSet d .ON with
  | none => none
  | some d1 =>
    let raw2 :=
      if 10 < v.val then
        (d1.raw.set LAMP_MODE (.intV 2)).set AMBIENT_LIGHT_MODE (.intV (v.val - 10))
      else
        (d1.raw.set LAMP_MODE (.intV v.val)).set AMBIENT_LIGHT_MODE (.intV 0)
    Device.addCommand { d1 with raw := raw2 } [LAMP_MODE, AMBIENT_LIGHT_MODE]

/-- Writing `lamp_mode` with a string payload received over MQTT:
`ensure_setter_type` coerces the string to an enum member by name
(`ValueError`, i.e. `none`, when no member matches), then runs the setter. -/
def lampModeSetStr (d : Device) (payload : String) : Option Device :=
  match LampMode.ofName payload with
  | none => none
  | some v => lampModeSet d v

/-! ## DeviceBridge liveness (`coap_bridge.py`,
`signal_online` / `signal_offline`) and cycle time -/

/-- A liveness status publish on the MQTT bus
(`publish_online` / `publish_offline` in `mqtt.py`). -/
inductive LiveEvent where
  | online
  | offline
  deriving DecidableEq, Repr

/-- The bridge state the liveness gate touches: the `was_online` mirror,
together with the trace of status publishes issued so far. -/
structure LiveState where
  wasOnline : Bool
  published : List LiveEvent
  deriving DecidableEq, Repr

/-- `DeviceBridge.signal_online`: returns immediately when `was_online` is
already set; otherwise sets the mirror and then calls
`publisher.publish_online`. -/
def signalOnline (b : LiveState) : LiveState :=
  if b.wasOnline then b
  else { wasOnline := true, published := b.published ++ [.online] }

/-- `DeviceBridge.signal_offline`: returns immediately when `was_online`
is already clear; otherwise clears the mirror and then calls
`publisher.publish_offline`. -/
def signalOffline (b : LiveState) : LiveState :=
  if !b.wasOnline then b
  else { wasOnline := false, published := b.published ++ [.offline] }

/-- `DeviceBridge.update_status_from_device`:
`self.cycle_time = max(10, max_age - 10)`. -/
def cycleTime (maxAge : Int) : Int :=
  max 10 (maxAge - 10)

/-- The command-dispatch step of `DeviceBridge.send_update` after the
property setter ran: drains the queue with `get_commands`; when the
drained list is empty, logs a warning and returns without sending;
otherwise each drained command is sent to the device in order.  Returns
the commands dispatched to the device and the device afterwards. -/
def sendUpdateDispatch (d : Device) : List Command × Device :=
  let drained := d.getCommands
  if drained.1 = [] then ([], drained.2) else drained

/-! ## MQTT Connection: differential state publishing (`mqtt.py`,
`Connection.publish_state` and `Connection._publish`) -/

/-- A value published to MQTT: `str | int | float | bool | None`
(the codomain of `CoapDevice.as_dict`). -/
inductive MqttValue where
  | mstr : String → MqttValue
  | mint : Int → MqttValue
  | mrat : ℚ → MqttValue
  | mbool : Bool → MqttValue
  | mnone
  deriving DecidableEq, Repr

/-- Numeric view used by Python `==`: ints, floats and bools compare
numerically (`True == 1`, `0.0 == 0`). -/
def MqttValue.asRat : MqttValue → Option ℚ
  | .mint n => some (n : ℚ)
  | .mrat q => some q
  | .mbool b => some (if b then 1 else 0)
  | _ => none

/-- Python `==` on published values. -/
def MqttValue.pyEq (a b : MqttValue) : Bool :=
  match a.asRat, b.asRat with
  | some x, some y => x = y
  | _, _ => a = b

/-- The flat `as_dict()` snapshot of a device: attribute name to
serializable value, in property order. -/
abbrev PrettyState := List (String × MqttValue)

/-- The per-host last-published cache entry
(`Connection.last_states[host]`, absent host = empty dict). -/
abbrev Cache := List (String × MqttValue)

/-- `last_state.get(key, None)`. -/
def Cache.getD (c : Cache) (k : String) : MqttValue :=
  match c.find? (fun kv => kv.1 = k) with
  | some kv => kv.2
  | none => .mnone

/-- The attribute publishes issued by one `publish_state` call: each
`as_dict` entry whose value is not Python-`==` to the cached one. -/
def attrPublishes (cache : Cache) (pretty : PrettyState) :
    List (String × MqttValue) :=
  pretty.filter (fun kv => !(kv.2.pyEq (cache.getD kv.1)))

/-- `Connection.publish_state`: publishes `last_update` (timestamp payload
`ts`) and `raw_state` (JSON payload `rawJson`) unconditionally, then the
differential attribute publishes, and finally replaces the cache entry
with the fresh snapshot.  Every publish goes through `_publish`, which
swallows broker and serialization errors (modelled by the oracle
`failing`, naming the topic keys whose `_publish` call fails): a failed
publish is logged and dropped, and the loop and the cache update still
run.  Returns the list of publishes that reached the bus and the new
cache entry. -/
def publishState (failing : String → Bool) (ts rawJson : MqttValue)
    (cache : Cache) (pretty : PrettyState) :
    List (String × MqttValue) × Cache :=
  let attempts : List (String × MqttValue) :=
    ("last_update", ts) :: ("raw_state", rawJson) :: attrPublishes cache pretty
  (attempts.filter (fun kv => !failing kv.1), pretty)

/-! ## Theorems -/

/-- C7: after every successful status fetch the next cycle sleep is
`max(10, max_age - 10)`, hence at least 10 seconds for every integer
`max_age`, and exactly 50 seconds for `max_age = 60`. -/
theorem cycle_time_floor :
    ∀ maxAge : Int, 10 ≤ cycleTime maxAge ∧ cycleTime 60 = 50 :=
  fun _ => ⟨le_max_left 10 _, rfl⟩

/-- When the error raw key is absent the getter decodes the default
code 100. -/
lemma errorGet_of_missing (s : RawState) (h : s ERROR_CODE = none) :
    errorGet s = some (.code 100) := by
  simp [errorGet, RawState.getD, h, RawValue.eqInt, ErrorStatus.ofValue, pyInt]

/-- C10: when the error raw key `D03240` is absent, the code defaults to
100, a non-zero code outside the known set, so reading `error` returns the
integer 100 and never the `None` value. -/
theorem error_missing_key_defaults_to_100 :
    ∀ s : RawState, s ERROR_CODE = none →
      errorGet s = some (.code 100) ∧ errorGet s ≠ some .pyNone := by
  intro s h
  have h100 := errorGet_of_missing s h
  exact ⟨h100, by simp [h100]⟩

/-- C10 witness: the empty raw dictionary. -/
theorem error_missing_key_defaults_to_100_witness :
    errorGet emptyRaw = some (.code 100) ∧ errorGet emptyRaw ≠ some .pyNone :=
  error_missing_key_defaults_to_100 emptyRaw rfl

/-- C6: with the error raw key present as an integer code, reading `error`
returns `None` on 0, the symbolic member on a known code, and the raw
integer itself on any other code — in particular `-9999` yields the
integer `-9999`. -/
theorem error_code_decoding :
    ∀ (s : RawState) (c : Int), s ERROR_CODE = some (.intV c) →
      errorGet s = some
        (if c = 0 then .pyNone
         else if c = -16128 then .status .FillTank
         else if c = -16352 then .status .CleanFilter
         else .code c) := by
  intro s c h
  simp only [errorGet, RawState.getD, h, Option.getD_some, RawValue.eqInt,
    ErrorStatus.ofValue, pyInt]
  split_ifs <;> simp_all

/-- C6 witness: concrete codes 0, -16128, -16352 and -9999. -/
theorem error_code_decoding_witness :
    errorGet (emptyRaw.set ERROR_CODE (.intV 0)) = some .pyNone ∧
    errorGet (emptyRaw.set ERROR_CODE (.intV (-16128))) = some (.status .FillTank) ∧
    errorGet (emptyRaw.set ERROR_CODE (.intV (-16352))) = some (.status .CleanFilter) ∧
    errorGet (emptyRaw.set ERROR_CODE (.intV (-9999))) = some (.code (-9999)) := by
  refine ⟨?_, ?_, ?_, ?_⟩
  · simpa using error_code_decoding (emptyRaw.set ERROR_CODE (.intV 0)) 0 rfl
  · simpa using error_code_decoding (emptyRaw.set ERROR_CODE (.intV (-16128))) (-16128) rfl
  · simpa using error_code_decoding (emptyRaw.set ERROR_CODE (.intV (-16352))) (-16352) rfl
  · simpa using error_code_decoding (emptyRaw.set ERROR_CODE (.intV (-9999))) (-9999) rfl

/-- C9: writing `power_status` with the value the device already has
returns before mutating anything: the raw dictionary and the command
queue are unchanged, and with an empty queue the dispatch step of
`send_update` drains nothing and sends nothing. -/
theorem power_write_same_value_is_noop :
    ∀ (d : Device) (v : OnOff), powerStatusGet d.raw = some v →
      powerStatusSet d v = some d ∧
      (d.commands = [] → sendUpdateDispatch d = ([], d)) := by
  intro d v h
  constructor
  · simp [powerStatusSet, h]
  · intro hc
    cases d with
    | mk raw cmds =>
      simp only at hc
      subst hc
      simp [sendUpdateDispatch, Device.getCommands]

/-- C9 witness: the freshly constructed device, whose power status reads
`OFF` by default. -/
theorem power_write_same_value_is_noop_witness :
    powerStatusSet emptyDevice .OFF = some emptyDevice ∧
    sendUpdateDispatch emptyDevice = ([], emptyDevice) := by
  have h := power_write_same_value_is_noop emptyDevice .OFF rfl
  exact ⟨h.1, h.2 rfl⟩

/-- C3: the liveness operations are gated by the `was_online` mirror.
Calling `signal_online` twice starting from an offline mirror publishes
exactly one `ONLINE`; calling `signal_offline` twice starting from an
online mirror publishes exactly one `OFFLINE`.  In the code the mirror is
assigned before `publish_online` / `publish_offline` runs; the model
performs the two as one step, preserving that a redundant status is never
published. -/
theorem liveness_idempotent :
    ∀ pubs : List LiveEvent,
      (signalOnline (signalOnline ⟨false, pubs⟩)).published = pubs ++ [.online] ∧
      (signalOffline (signalOffline ⟨true, pubs⟩)).published = pubs ++ [.offline] := by
  intro pubs
  constructor <;> simp [signalOnline, signalOffline]

/-- Python `==` is reflexive on published values. -/
lemma MqttValue.pyEq_refl (v : MqttValue) : v.pyEq v = true := by
  cases v <;> simp [MqttValue.pyEq, MqttValue.asRat]

/-- In a snapshot with no duplicate attribute names, `get` on an entry
recovers that entry's own value. -/
lemma Cache.getD_mem_of_nodup :
    ∀ (p : Cache) (k : String) (v : MqttValue),
      (p.map Prod.fst).Nodup → (k, v) ∈ p → p.getD k = v := by
  intro p
  induction p with
  | nil => intro k v _ hm; simp at hm
  | cons hd tl ih =>
    intro k v hnd hm
    rw [List.map_cons, List.nodup_cons] at hnd
    rcases List.mem_cons.mp hm with heq | htl
    · subst heq
      simp [Cache.getD, List.find?]
    · have hk : hd.1 ≠ k := by
        intro hkk
        exact hnd.1 (hkk ▸ List.mem_map_of_mem Prod.fst htl)
      have := ih k v hnd.2 htl
      simpa [Cache.getD, List.find?_cons, hk] using this

/-- Publishing a snapshot against a cache equal to that snapshot yields no
attribute publish. -/
lemma attrPublishes_self (p : PrettyState) (hnd : (p.map Prod.fst).Nodup) :
    attrPublishes p p = [] := by
  rw [attrPublishes, List.filter_eq_nil_iff]
  intro kv hm
  have : Cache.getD p kv.1 = kv.2 := Cache.getD_mem_of_nodup p kv.1 kv.2 hnd hm
  simp [this, MqttValue.pyEq_refl]

/-- A publish sink that never fails. -/
def noFail : String → Bool := fun _ => false

/-- C5: `publish_state` publishes `last_update` and `raw_state`
unconditionally, publishes an attribute exactly when its value differs
from the last-published cache entry, updates the cache to the fresh
snapshot, and therefore a second call with an identical `as_dict` output
publishes no attribute topic. -/
theorem differential_publish :
    ∀ (ts1 raw1 ts2 raw2 : MqttValue) (cache : Cache) (pretty : PrettyState),
      (pretty.map Prod.fst).Nodup →
      (publishState noFail ts1 raw1 cache pretty).1 =
        ("last_update", ts1) :: ("raw_state", raw1) :: attrPublishes cache pretty ∧
      (∀ k v, (k, v) ∈ attrPublishes cache pretty ↔
        ((k, v) ∈ pretty ∧ ¬ v.pyEq (cache.getD k) = true)) ∧
      (publishState noFail ts1 raw1 cache pretty).2 = pretty ∧
      (publishState noFail ts2 raw2 pretty pretty).1 =
        [("last_update", ts2), ("raw_state", raw2)] := by
  intro ts1 raw1 ts2 raw2 cache pretty hnd
  refine ⟨?_, ?_, rfl, ?_⟩
  · simp [publishState, noFail]
  · intro k v
    simp [attrPublishes, List.mem_filter]
  · simp [publishState, noFail, attrPublishes_self pretty hnd]

/-- C5 witness: a one-attribute device snapshot published twice against an
initially empty cache. -/
theorem differential_publish_witness :
    (publishState noFail (.mstr "t1") (.mstr "r1") []
        [("power_status", .mstr "OFF")]).1 =
      ("last_update", .mstr "t1") :: ("raw_state", .mstr "r1") ::
        attrPublishes [] [("power_status", .mstr "OFF")] ∧
    (∀ k v, (k, v) ∈ attrPublishes [] [("power_status", MqttValue.mstr "OFF")] ↔
      ((k, v) ∈ [("power_status", MqttValue.mstr "OFF")] ∧
        ¬ v.pyEq (Cache.getD [] k) = true)) ∧
    (publishState noFail (.mstr "t1") (.mstr "r1") []
        [("power_status", .mstr "OFF")]).2 = [("power_status", .mstr "OFF")] ∧
    (publishState noFail (.mstr "t2") (.mstr "r2")
        [("power_status", .mstr "OFF")] [("power_status", .mstr "OFF")]).1 =
      [("last_update", .mstr "t2"), ("raw_state", .mstr "r2")] :=
  differential_publish (.mstr "t1") (.mstr "r1") (.mstr "t2") (.mstr "r2")
    [] [("power_status", .mstr "OFF")] (by decide)

/-- C8: a failed attribute publish inside `publish_state` is swallowed:
the failing topic never reaches the bus, yet the cache entry is still
replaced with the whole fresh snapshot, so a later call with an unchanged
snapshot does not retry the failed attribute (it attempts no attribute
publish at all). -/
theorem failed_publish_not_retried :
    ∀ (failing failing2 : String → Bool) (ts raw ts2 raw2 : MqttValue)
      (cache : Cache) (pretty : PrettyState) (k : String) (v : MqttValue),
      (publishState failing ts raw cache pretty).2 = pretty ∧
      (failing k = true → (k, v) ∉ (publishState failing ts raw cache pretty).1) ∧
      ((pretty.map Prod.fst).Nodup →
        (publishState failing2 ts2 raw2 pretty pretty).1 =
          List.filter (fun kv => !failing2 kv.1)
            [("last_update", ts2), ("raw_state", raw2)]) := by
  intro failing failing2 ts raw ts2 raw2 cache pretty k v
  refine ⟨rfl, ?_, ?_⟩
  · intro hf hm
    simp only [publishState, List.mem_filter] at hm
    simp [hf] at hm
  · intro hnd
    simp [publishState, attrPublishes_self pretty hnd]

/-- C8 witness: the broker rejects the `power_status` topic; the cache is
still replaced and the next identical snapshot republishes nothing. -/
theorem failed_publish_not_retried_witness :
    (publishState (fun k => k = "power_status") (.mstr "t1") (.mstr "r1") []
        [("power_status", .mstr "OFF")]).2 = [("power_status", .mstr "OFF")] ∧
    (((fun k => decide (k = "power_status")) "power_status" = true) →
      ("power_status", MqttValue.mstr "OFF") ∉
        (publishState (fun k => k = "power_status") (.mstr "t1") (.mstr "r1") []
          [("power_status", .mstr "OFF")]).1) ∧
    (([("power_status", MqttValue.mstr "OFF")].map Prod.fst).Nodup →
      (publishState noFail (.mstr "t2") (.mstr "r2")
          [("power_status", .mstr "OFF")] [("power_status", .mstr "OFF")]).1 =
        List.filter (fun kv => !noFail kv.1)
          [("last_update", .mstr "t2"), ("raw_state", .mstr "r2")]) :=
  failed_publish_not_retried (fun k => k = "power_status") noFail
    (.mstr "t1") (.mstr "r1") (.mstr "t2") (.mstr "r2")
    [] [("power_status", .mstr "OFF")] "power_status" (.mstr "OFF")

/-- C4: every Hu1508 attribute getter succeeds on a raw dictionary missing
its backing keys and returns the documented default: name `"Unknown"`,
power `OFF`, work mode `Auto`, humidity target 40, lamp mode `Off`,
brightness `Off`, beep `ON`, standby sensors `ON`, temperature 0,
humidity 0, filter percent 100 when both filter keys are absent, error
code 100, runtime 0 seconds. -/
theorem read_defaults_on_missing_keys :
    ∀ s : RawState,
      (s DEVICE_NAME = none → nameGet s = .strV "Unknown") ∧
      (s POWER_STATUS = none → powerStatusGet s = some .OFF) ∧
      (s WORK_MODE = none → modeGet s = some .Auto) ∧
      (s HUMIDITY_TARGET = none → humidityTargetGet s = .intV 40) ∧
      (s LAMP_MODE = none → lampModeGet s = some .Off) ∧
      (s BRIGHTNESS = none → brightnessGet s = some .Off) ∧
      (s BEEP_STATUS = none → preferencesBeepGet s = some .ON) ∧
      (s STANDBY_SENSORS = none → preferencesSensorsGet s = some .ON) ∧
      (s TEMPERATURE = none → temperatureGet s = some 0) ∧
      (s HUMIDITY = none → humidityGet s = some 0) ∧
      (s FILTER_REMAINING_TIME = none → s FILTER_TOTAL_TIME = none →
        percentUnitBeforeCleaningGet s = some 100) ∧
      (s ERROR_CODE = none → errorGet s = some (.code 100)) ∧
      (s RUNTIME = none → runtimeSecondsGet s = some 0) := by
  intro s
  refine ⟨?_, ?_, ?_, ?_, ?_, ?_, ?_, ?_, ?_, ?_, ?_, ?_, ?_⟩
  · intro h; simp [nameGet, RawState.getD, h]
  · intro h
    simp [powerStatusGet, RawState.getD, h, OnOff.ofValue, RawValue.eqInt]
  · intro h
    simp [modeGet, RawState.getD, h, WorkMode.ofValue, RawValue.eqInt]
  · intro h; simp [humidityTargetGet, RawState.getD, h]
  · intro h
    simp [lampModeGet, RawState.getD, h, LampMode.ofValue, RawValue.eqInt]
  · intro h
    simp [brightnessGet, RawState.getD, h, Brightness.ofValue, RawValue.eqInt]
  · intro h
    simp [preferencesBeepGet, RawState.getD, h, OnOff.ofValue, RawValue.eqInt]
  · intro h
    simp [preferencesSensorsGet, RawState.getD, h, OnOff.ofValue, RawValue.eqInt]
  · intro h
    simp [temperatureGet, RawState.getD, h, pyInt]
  · intro h; simp [humidityGet, RawState.getD, h, pyInt]
  · intro h1 h2
    simp [percentUnitBeforeCleaningGet, RawState.getD, h1, h2, pyInt, pyRound2]
    norm_num [show Rat.floor 10000 = 10000 from rfl]
  · intro h
    exact errorGet_of_missing s h
  · intro h
    simp [runtimeSecondsGet, RawState.getD, h, pyInt]

/-- C4 witness: the empty raw dictionary, on which every backing key is
absent. -/
theorem read_defaults_on_missing_keys_witness :
    nameGet emptyRaw = .strV "Unknown" ∧
    powerStatusGet emptyRaw = some .OFF ∧
    modeGet emptyRaw = some .Auto ∧
    humidityTargetGet emptyRaw = .intV 40 ∧
    lampModeGet emptyRaw = some .Off ∧
    brightnessGet emptyRaw = some .Off ∧
    preferencesBeepGet emptyRaw = some .ON ∧
    preferencesSensorsGet emptyRaw = some .ON ∧
    temperatureGet emptyRaw = some 0 ∧
    humidityGet emptyRaw = some 0 ∧
    percentUnitBeforeCleaningGet emptyRaw = some 100 ∧
    errorGet emptyRaw = some (.code 100) ∧
    runtimeSecondsGet emptyRaw = some 0 := by
  have h := read_defaults_on_missing_keys emptyRaw
  exact ⟨h.1 rfl, h.2.1 rfl, h.2.2.1 rfl, h.2.2.2.1 rfl, h.2.2.2.2.1 rfl,
    h.2.2.2.2.2.1 rfl, h.2.2.2.2.2.2.1 rfl, h.2.2.2.2.2.2.2.1 rfl,
    h.2.2.2.2.2.2.2.2.1 rfl, h.2.2.2.2.2.2.2.2.2.1 rfl,
    h.2.2.2.2.2.2.2.2.2.2.1 rfl rfl, h.2.2.2.2.2.2.2.2.2.2.2.1 rfl,
    h.2.2.2.2.2.2.2.2.2.2.2.2 rfl⟩

/-- `_add_command` leaves the raw dictionary untouched. -/
lemma addCommand_raw (d e : Device) (fs : List String)
    (h : d.addCommand fs = some e) : e.raw = d.raw := by
  unfold Device.addCommand at h
  cases hc : collectFields d.raw fs with
  | none => rw [hc] at h; cases h
  | some cmd =>
    rw [hc] at h
    simp only [Option.some.injEq] at h
    rw [← h]

/-- Decoding the raw dictionary right after the `lamp_mode` setter wrote
its encoding of `m` recovers `m`, whatever the rest of the dictionary
holds. -/
lemma lampModeGet_encode (s : RawState) (m : LampMode) :
    lampModeGet
      (if 10 < m.val then
        (s.set LAMP_MODE (.intV 2)).set AMBIENT_LIGHT_MODE (.intV (m.val - 10))
      else
        (s.set LAMP_MODE (.intV m.val)).set AMBIENT_LIGHT_MODE (.intV 0)) = some m := by
  cases m <;>
    simp [lampModeGet, RawState.getD, RawState.set, LampMode.val,
      RawValue.eqInt, pyAdd10, LampMode.ofValue, LAMP_MODE, AMBIENT_LIGHT_MODE]

/-- A starting raw state on which writing `lamp_mode` raises: the raw
power value 5 is no `OnOff` code, and the setter rereads power before
touching the lamp keys. -/
def badPowerDevice : Device :=
  { raw := (emptyRaw.set POWER_STATUS (.intV 5)).set LAMP_MODE (.intV 1),
    commands := [] }

/-- C1 counterexample: the claim quantifies over every starting raw state,
but on the state `{D03102: 5, D03135: 1}` writing `Warm` raises
`ValueError` (the implicit power-on rereads `power_status` and `OnOff(5)`
fails), so no state is stored and `lamp_mode` still reads `Humidity`,
not `Warm`. -/
theorem lamp_mode_roundtrip_cex :
    lampModeSet badPowerDevice .Warm = none ∧
    lampModeGet badPowerDevice.raw = some .Humidity ∧
    some LampMode.Humidity ≠ some LampMode.Warm :=
  ⟨rfl, rfl, by decide⟩

/-- C1 amended: for every member `m` of `LampMode` and every starting raw
state on which the write completes (it raises exactly when the implicit
power-on fails to decode the raw power value), reading `lamp_mode` after
writing `m` returns `m`: the writer stores values up to 10 in the
lamp-mode key with the ambient-light key cleared to 0 and values above 10
as lamp-mode key 2 with ambient-light key `m.value - 10`, and the reader
inverts this encoding. -/
theorem lamp_mode_roundtrip (d e : Device) (m : LampMode)
    (h : lampModeSet d m = some e) : lampModeGet e.raw = some m := by
  unfold lampModeSet at h
  cases hp : powerStatusSet d .ON with
  | none => rw [hp] at h; cases h
  | some d1 =>
    rw [hp] at h
    have hraw := addCommand_raw _ e _ h
    rw [hraw]
    exact lampModeGet_encode d1.raw m

/-- The device produced by writing `Warm` on a fresh device. -/
def warmDevice : Device :=
  { raw := ((emptyRaw.set POWER_STATUS (.intV 1)).set LAMP_MODE
      (.intV 2)).set AMBIENT_LIGHT_MODE (.intV 1),
    commands := [[(POWER_STATUS, .intV 1)],
      [(LAMP_MODE, .intV 2), (AMBIENT_LIGHT_MODE, .intV 1)]] }

/-- C1 witness: writing `Warm` on the fresh device succeeds and reads back
as `Warm`. -/
theorem lamp_mode_roundtrip_witness :
    lampModeSet emptyDevice .Warm = some warmDevice ∧
    lampModeGet warmDevice.raw = some .Warm :=
  ⟨rfl, lamp_mode_roundtrip emptyDevice warmDevice .Warm rfl⟩

/-- C2: from a state with power `OFF`, lamp mode `Off` and an empty
queue, writing `lamp_mode` with the MQTT string payload `"Warm"` coerces
it to the enum member, forces power ON first, stores the ambient
encoding, and enqueues exactly two commands in order — `{D03102: 1}` from
the power change, then the single atomic `{D03135: 2, D03137: 1}` — and a
subsequent read of `lamp_mode` returns `Warm`. -/
theorem ambient_write_from_off :
    ∀ d : Device,
      powerStatusGet d.raw = some .OFF →
      lampModeGet d.raw = some .Off →
      d.commands = [] →
      lampModeSetStr d "Warm" = some
        { raw := ((d.raw.set POWER_STATUS (.intV 1)).set LAMP_MODE
            (.intV 2)).set AMBIENT_LIGHT_MODE (.intV 1),
          commands := [[(POWER_STATUS, .intV 1)],
            [(LAMP_MODE, .intV 2), (AMBIENT_LIGHT_MODE, .intV 1)]] } ∧
      lampModeGet (((d.raw.set POWER_STATUS (.intV 1)).set LAMP_MODE
          (.intV 2)).set AMBIENT_LIGHT_MODE (.intV 1)) = some .Warm := by
  intro d hp hl hc
  constructor
  · simp [lampModeSetStr, LampMode.ofName, lampModeSet, powerStatusSet, hp, hc,
      Device.addCommand, collectFields, RawState.set, LampMode.val, OnOff.val,
      POWER_STATUS, LAMP_MODE, AMBIENT_LIGHT_MODE]
  · simpa [LampMode.val] using
      lampModeGet_encode (d.raw.set POWER_STATUS (.intV 1)) .Warm

/-- C2 witness: the fresh device, whose power reads `OFF` and lamp mode
reads `Off` by default. -/
theorem ambient_write_from_off_witness :
    lampModeSetStr emptyDevice "Warm" = some warmDevice ∧
    lampModeGet warmDevice.raw = some .Warm := by
  have h := ambient_write_from_off emptyDevice rfl rfl rfl
  exact ⟨h.1, h.2⟩

end Coap2MQTT
